import Mathlib

/-!
Verification development for a bookmarking MCP server built on the Diigo
REST API.  The definitions below are a shallow embedding of the Python
sources: `diigo_client.py` (HTTP retry client, pagination, bulk save),
`tools.py` (the public tool operations) and `utils.py` (parameter
normalisation and URL validation).

The external HTTP world is modelled by an oracle of type `Server`: a
function from the request being issued and the zero-based attempt index to
the outcome of that attempt (an HTTP response with status, body text and
optional parsed JSON; a network timeout; or another transport fault).
Every embedded function additionally returns the list of observable
events it produced (HTTP attempts and sleeps), so that retry counts,
backoff amounts, rate-limiting delays and call ordering can be stated.

Exceptions entering a tool boundary (for example while constructing the
client session) are modelled by an `Option String` argument: `some e`
means the underlying machinery raised `e` at the boundary, which the
embedded tool converts exactly as the Python `except` clause does.
Unbounded `while` loops (auto-pagination) take an explicit fuel argument
and return `none` only when the fuel runs out, which corresponds to the
Python loop genuinely not terminating.
-/

/-- Configuration constants, from `config.py` (environment driven). -/
structure Config where
  apiKey : String
  defaultUser : String
  maxRetries : Nat
  retryBackoff : ℚ
  maxBookmarksPerRequest : Nat
deriving DecidableEq

/-- A single HTTP request as assembled by `_request_with_retry`:
method, endpoint, query parameters (including the injected api key)
and form body data. -/
structure Request where
  method : String
  endpoint : String
  params : List (String × String)
  data : List (String × String)
deriving DecidableEq

/-- A bookmark record as returned by the upstream API.  The boolean-like
fields are the literal strings "yes"/"no", as on the wire. -/
structure Bookmark where
  url : String
  title : String
  desc : String
  tags : String
  shared : String
  readlater : String
  annotations : List String
deriving DecidableEq

/-- A bulk-create failure record: original zero-based index, url and
error message (from `bulk_save_bookmarks`). -/
structure FailureRec where
  index : Nat
  url : String
  error : String
deriving DecidableEq

/-- The summary dict returned by `bulk_save_bookmarks`. -/
structure BulkSummary where
  total : Nat
  success : Nat
  failed : Nat
  failures : List FailureRec
deriving DecidableEq

/-- A JSON value as the client sees it: an array of bookmarks, an object
with string fields, or some other JSON datum (string, number, ...). -/
inductive PyVal where
  | list (items : List Bookmark)
  | dict (fields : List (String × String))
  | other (s : String)
deriving DecidableEq

/-- Outcome of one HTTP attempt, decided by the external server:
a response with status code, body text and the parsed JSON body (`none`
when the body is not JSON, the `aiohttp.ContentTypeError` case), a
network timeout (`asyncio.TimeoutError`), or another transport fault
carrying its description (the broad `except Exception` case). -/
inductive Attempt where
  | resp (status : Nat) (body : String) (json : Option PyVal)
  | timeout
  | exn (msg : String)
deriving DecidableEq

/-- The external HTTP world: maps a request and a zero-based attempt
index to the outcome of that attempt. -/
def Server : Type := Request → Nat → Attempt

/-- Observable events produced by the client: one entry per HTTP attempt
issued, and one entry per `asyncio.sleep` (backoff or bulk delay). -/
inductive Event where
  | attempt (r : Request) (i : Nat)
  | sleep (q : ℚ)
deriving DecidableEq

/-- Extracts the sleep durations from an event trace, in order. -/
def sleeps (tr : List Event) : List ℚ :=
  tr.filterMap (fun e => match e with | .sleep q => some q | _ => none)

/-- Extracts the requests of all HTTP attempts from a trace, in order. -/
def httpAttempts (tr : List Event) : List Request :=
  tr.filterMap (fun e => match e with | .attempt r _ => some r | _ => none)

/-- The POST attempts of a trace (save/delete calls), in order. -/
def postAttempts (tr : List Event) : List Request :=
  (httpAttempts tr).filter (fun r => r.method == "POST")

/-- Looks a key up in an assoc-list dict with a default, mirroring
Python `d.get(key, default)`. -/
def dictGet (fs : List (String × String)) (k dflt : String) : String :=
  match fs.find? (fun p => p.1 == k) with
  | some p => p.2
  | none => dflt

/-- Builds the request issued by `_request_with_retry`: the api key is
injected into the query parameters of every call. -/
def buildReq (cfg : Config) (method endpoint : String)
    (params data : List (String × String)) : Request :=
  { method := method, endpoint := endpoint,
    params := params ++ [("key", cfg.apiKey)], data := data }

/-- The retry loop of `_request_with_retry` (`diigo_client.py` lines
60-146).  `fuel` is the number of loop iterations remaining (the loop is
`for attempt in range(MAX_RETRIES)`, so it starts at `cfg.maxRetries`
with `attempt = 0`); when the loop body is never entered the defensive
fallback "Max retries exceeded" is returned.  Statuses 400 and 503 and a
timeout back off `retryBackoff ^ attempt` seconds and retry while
`attempt < maxRetries - 1`; 401/403/404, any other status, and a
non-timeout transport fault return immediately. -/
def retryLoop (cfg : Config) (server : Server) (req : Request) :
    Nat → Nat → PyVal × List Event
  | 0, _ => (.dict [("error", "Max retries exceeded")], [])
  | fuel + 1, attempt =>
    match server req attempt with
    | .resp status body json =>
      if status == 200 then
        match json with
        | some v => (v, [.attempt req attempt])
        | none => (.dict [("message", body)], [.attempt req attempt])
      else if status == 400 then
        if attempt < cfg.maxRetries - 1 then
          let next := retryLoop cfg server req fuel (attempt + 1)
          (next.1, .attempt req attempt ::
            .sleep (cfg.retryBackoff ^ attempt) :: next.2)
        else
          (.dict [("error", "Request failed after " ++
              toString cfg.maxRetries ++ " attempts: " ++ body)],
            [.attempt req attempt])
      else if status == 401 then
        (.dict [("error", "Authentication failed: " ++ body)],
          [.attempt req attempt])
      else if status == 403 then
        (.dict [("error", "Access forbidden: " ++ body)],
          [.attempt req attempt])
      else if status == 404 then
        (.dict [("error", "Resource not found: " ++ body)],
          [.attempt req attempt])
      else if status == 503 then
        if attempt < cfg.maxRetries - 1 then
          let next := retryLoop cfg server req fuel (attempt + 1)
          (next.1, .attempt req attempt ::
            .sleep (cfg.retryBackoff ^ attempt) :: next.2)
        else
          (.dict [("error", "Server busy after " ++
              toString cfg.maxRetries ++ " attempts: " ++ body)],
            [.attempt req attempt])
      else
        (.dict [("error", "HTTP " ++ toString status ++ ": " ++ body)],
          [.attempt req attempt])
    | .timeout =>
      if attempt < cfg.maxRetries - 1 then
        let next := retryLoop cfg server req fuel (attempt + 1)
        (next.1, .attempt req attempt ::
          .sleep (cfg.retryBackoff ^ attempt) :: next.2)
      else
        (.dict [("error", "Request timeout after " ++
            toString cfg.maxRetries ++ " attempts")],
          [.attempt req attempt])
    | .exn msg =>
      (.dict [("error", "Request failed: " ++ msg)], [.attempt req attempt])

/-- `_request_with_retry`: builds the request and runs the retry loop
from attempt 0. -/
def requestWithRetry (cfg : Config) (server : Server)
    (method endpoint : String) (params data : List (String × String)) :
    PyVal × List Event :=
  retryLoop cfg server (buildReq cfg method endpoint params data)
    cfg.maxRetries 0

/-- The query parameters of a `get_bookmarks` page fetch
(`diigo_client.py` lines 176-188): `count` is clamped to the configured
per-request maximum, and `tags` / `list` appear only when truthy. -/
def bookmarksParams (cfg : Config) (user : String)
    (start count sort : Nat) (tags : Option String) (filt : String)
    (list_name : Option String) : List (String × String) :=
  [("user", user), ("start", toString start),
   ("count", toString (min count cfg.maxBookmarksPerRequest)),
   ("sort", toString sort), ("filter", filt)]
  ++ (match tags with
      | some t => if t == "" then [] else [("tags", t)]
      | none => [])
  ++ (match list_name with
      | some l => if l == "" then [] else [("list", l)]
      | none => [])

/-- The full GET request issued by one page fetch. -/
def getReq (cfg : Config) (user : String) (start count sort : Nat)
    (tags : Option String) (filt : String) (list_name : Option String) :
    Request :=
  buildReq cfg "GET" "bookmarks"
    (bookmarksParams cfg user start count sort tags filt list_name) []

/-- `get_bookmarks` (`diigo_client.py` lines 148-197): one bounded page
fetch.  An error dict from the retry layer is passed through; a 200
payload is returned when it is a list and replaced by the empty list
otherwise. -/
def get_bookmarks (cfg : Config) (server : Server) (user : Option String)
    (start count sort : Nat) (tags : Option String) (filt : String)
    (list_name : Option String) :
    (List Bookmark ⊕ List (String × String)) × List Event :=
  let u := user.getD cfg.defaultUser
  let r := requestWithRetry cfg server "GET" "bookmarks"
    (bookmarksParams cfg u start count sort tags filt list_name) []
  match r.1 with
  | .dict fs =>
    if fs.any (fun p => p.1 == "error") then (.inr fs, r.2)
    else (.inl [], r.2)
  | .list l => (.inl l, r.2)
  | .other _ => (.inl [], r.2)

/-- The `while True` pagination loop of `get_all_bookmarks`
(`diigo_client.py` lines 212-235), with explicit fuel.  An error page is
propagated immediately; an empty page stops without extending; a short
page (fewer than 100 items) stops after extending; otherwise the start
offset advances by 100. -/
def getAllAux (cfg : Config) (server : Server) (user : Option String)
    (sort : Nat) (tags : Option String) (filt : String)
    (list_name : Option String) :
    Nat → Nat → List Bookmark → List Event →
    Option ((List Bookmark ⊕ List (String × String)) × List Event)
  | 0, _, _, _ => none
  | fuel + 1, start, acc, tr =>
    match get_bookmarks cfg server user start 100 sort tags filt list_name with
    | (.inr err, tr2) => some (.inr err, tr ++ tr2)
    | (.inl batch, tr2) =>
      if batch.isEmpty then some (.inl acc, tr ++ tr2)
      else if batch.length < 100 then some (.inl (acc ++ batch), tr ++ tr2)
      else getAllAux cfg server user sort tags filt list_name fuel
        (start + 100) (acc ++ batch) (tr ++ tr2)

/-- `get_all_bookmarks`: auto-paginate from offset 0. -/
def get_all_bookmarks (cfg : Config) (server : Server) (fuel : Nat)
    (user : Option String) (sort : Nat) (tags : Option String)
    (filt : String) (list_name : Option String) :
    Option ((List Bookmark ⊕ List (String × String)) × List Event) :=
  getAllAux cfg server user sort tags filt list_name fuel 0 [] []

/-- A Python value accepted by `parse_bool_param` in `utils.py`:
a bool, a string, or None. -/
inductive PyBool where
  | bool (b : Bool)
  | str (s : String)
  | pynone
deriving DecidableEq

/-- `parse_bool_param` (`utils.py` lines 200-214): converts a
boolean-like value to the Diigo wire strings "yes"/"no". -/
def parse_bool_param : PyBool → String
  | .bool b => if b then "yes" else "no"
  | .str s => if ["yes", "true", "1", "y"].contains s.toLower then "yes" else "no"
  | .pynone => "no"

/-- The body data assembled by `save_bookmark` (`diigo_client.py` lines
262-270). -/
def mkSaveData (url title desc tags : String)
    (shared read_later merge : Bool) : List (String × String) :=
  [("url", url), ("title", title), ("desc", desc), ("tags", tags),
   ("shared", parse_bool_param (.bool shared)),
   ("readLater", parse_bool_param (.bool read_later)),
   ("merge", parse_bool_param (.bool merge))]

/-- The full POST request issued by one `save_bookmark` call. -/
def saveReq (cfg : Config) (url title desc tags : String)
    (shared read_later merge : Bool) : Request :=
  buildReq cfg "POST" "bookmarks" []
    (mkSaveData url title desc tags shared read_later merge)

/-- `save_bookmark`: POSTs the assembled bookmark data. -/
def save_bookmark (cfg : Config) (server : Server)
    (url title desc tags : String) (shared read_later merge : Bool) :
    PyVal × List Event :=
  requestWithRetry cfg server "POST" "bookmarks" []
    (mkSaveData url title desc tags shared read_later merge)

/-- `delete_bookmark` (`diigo_client.py` lines 274-290): POSTs url and
title. -/
def delete_bookmark (cfg : Config) (server : Server) (url title : String) :
    PyVal × List Event :=
  requestWithRetry cfg server "POST" "bookmarks" []
    [("url", url), ("title", title)]

/-- One item of a bulk create batch (the dict keys accepted by
`save_bookmark`, `merge` left at its default True). -/
structure BulkItem where
  url : String
  title : String
  desc : String
  tags : String
  shared : Bool
  read_later : Bool
deriving DecidableEq

/-- Message of the AttributeError Python raises when `result.get` is
called on a non-dict save result inside `bulk_save_bookmarks`; the
broad `except` clause stringifies it into the failure record. -/
def attrErrMsg : PyVal → String
  | .list _ => "list object has no attribute get"
  | .other _ => "object has no attribute get"
  | .dict _ => "object has no attribute get"

/-- The loop body of `bulk_save_bookmarks` (`diigo_client.py` lines
305-335).  `n` is the total batch length, `i` the current index.  A dict
result without an "error" key counts as success; a dict with "error"
appends a failure record; a non-dict result raises inside the `try`
(AttributeError on `.get`), which the `except` clause records as a
failure, skipping the rate-limit sleep.  The delay is slept after every
item except the last. -/
def bulkGo (cfg : Config) (server : Server) (delay : ℚ) (n : Nat) :
    List BulkItem → Nat → Nat → List FailureRec → List Event →
    BulkSummary × List Event
  | [], _, succ, fails, tr =>
    ({ total := n, success := succ, failed := fails.length,
       failures := fails }, tr)
  | item :: rest, i, succ, fails, tr =>
    let r := save_bookmark cfg server item.url item.title item.desc
      item.tags item.shared item.read_later true
    match r.1 with
    | .dict fs =>
      if fs.any (fun p => p.1 == "error") then
        bulkGo cfg server delay n rest (i + 1) succ
          (fails ++ [{ index := i, url := item.url,
                       error := dictGet fs "error" "Unknown error" }])
          (tr ++ r.2 ++ (if i < n - 1 then [Event.sleep delay] else []))
      else
        bulkGo cfg server delay n rest (i + 1) (succ + 1) fails
          (tr ++ r.2 ++ (if i < n - 1 then [Event.sleep delay] else []))
    | v =>
      bulkGo cfg server delay n rest (i + 1) succ
        (fails ++ [{ index := i, url := item.url, error := attrErrMsg v }])
        (tr ++ r.2)

/-- `bulk_save_bookmarks`: sequential creation with rate limiting. -/
def bulk_save_bookmarks (cfg : Config) (server : Server)
    (items : List BulkItem) (delay : ℚ) : BulkSummary × List Event :=
  bulkGo cfg server delay items.length items 0 0 [] []

/-- Whitespace test used by Python `str.strip` (modelled on the ASCII
whitespace characters). -/
def isWs (c : Char) : Bool := c.isWhitespace

/-- Python `str.strip()`: removes leading and trailing whitespace. -/
def pyStrip (l : List Char) : List Char :=
  ((l.dropWhile isWs).reverse.dropWhile isWs).reverse

/-- Python `s.split(",")`: splits on every comma, keeping empty pieces;
the empty string splits into one empty piece. -/
def splitComma : List Char → List (List Char)
  | [] => [[]]
  | c :: rest =>
    match splitComma rest with
    | [] => [[]]
    | h :: t => if c = ',' then [] :: h :: t else (c :: h) :: t

/-- Python `",".join(xs)`. -/
def joinComma : List (List Char) → List Char
  | [] => []
  | [x] => x
  | x :: y :: rest => x ++ ',' :: joinComma (y :: rest)

/-- `parse_tags` (`utils.py` lines 53-65): empty or whitespace-only
input yields the empty list; otherwise split on commas, strip each
piece, and keep the non-empty results. -/
def parse_tags (s : String) : List String :=
  if pyStrip s.data = [] then []
  else (splitComma s.data).filterMap (fun t =>
    if pyStrip t = [] then none else some (String.mk (pyStrip t)))

/-- `tags_to_string` (`utils.py` lines 68-78): comma-join a tag list. -/
def tags_to_string (tags : List String) : String :=
  String.mk (joinComma (tags.map String.data))

/-- Splits a character list at the first occurrence of `c`, when any. -/
def splitFirst (c : Char) : List Char → Option (List Char × List Char)
  | [] => none
  | x :: xs =>
    if x = c then some ([], xs)
    else (splitFirst c xs).map (fun p => (x :: p.1, p.2))

/-- Characters allowed in a URL scheme by `urllib.parse`. -/
def schemeChar (c : Char) : Bool :=
  c.isAlpha || c.isDigit || c == '+' || c == '-' || c == '.'

/-- The scheme and netloc extraction of `urllib.parse.urlparse`: the
scheme is the lowered text before the first colon when it is non-empty,
starts with a letter, and uses only scheme characters; the netloc is
present only when the remainder starts with "//" and extends to the
next '/', '?' or '#'. -/
def urlSchemeNetloc (s : List Char) : List Char × List Char :=
  let sr : List Char × List Char :=
    match splitFirst ':' s with
    | some (pre, post) =>
      if pre ≠ [] ∧ (pre.headD ' ').isAlpha ∧ pre.all schemeChar then
        (pre.map Char.toLower, post)
      else ([], s)
    | none => ([], s)
  match sr.2 with
  | '/' :: '/' :: rest =>
    (sr.1, rest.takeWhile (fun c => c ≠ '/' ∧ c ≠ '?' ∧ c ≠ '#'))
  | _ => (sr.1, [])

/-- `validate_url` (`utils.py` lines 95-109): true iff the parsed URL
has both a non-empty scheme and a non-empty netloc. -/
def validate_url (url : String) : Bool :=
  let p := urlSchemeNetloc url.data
  !p.1.isEmpty && !p.2.isEmpty

/-- Case-sensitive substring test (callers lower both sides first),
mirroring the Python `in` operator on strings. -/
def strContainsSub (hay needle : String) : Bool :=
  (List.range (hay.data.length + 1)).any
    (fun i => needle.data.isPrefixOf (hay.data.drop i))

/-- The structured value a public tool serialises with `json.dumps`:
a JSON value from the client, a single bookmark, an annotation array, or
a bulk summary. -/
inductive ToolResult where
  | json (v : PyVal)
  | bookmark (b : Bookmark)
  | annotations (xs : List String)
  | summary (s : BulkSummary)
deriving DecidableEq

/-- The error object a tool boundary returns. -/
def errJson (msg : String) : ToolResult := .json (.dict [("error", msg)])

/-- `list_bookmarks_tool` (`tools.py` lines 15-65): with no count,
auto-paginate; with a count, a single page fetch.  `exc` models an
exception raised while entering the client context, converted by the
boundary `except` clause. -/
def list_bookmarks_tool (cfg : Config) (server : Server) (fuel : Nat)
    (exc : Option String) (user : Option String) (count : Option Nat)
    (start sort : Nat) (tags : Option String) (filt : String)
    (list_name : Option String) : Option (ToolResult × List Event) :=
  match exc with
  | some e => some (errJson e, [])
  | none =>
    match count with
    | none =>
      match get_all_bookmarks cfg server fuel user sort tags filt list_name with
      | none => none
      | some (.inr err, tr) => some (.json (.dict err), tr)
      | some (.inl bs, tr) => some (.json (.list bs), tr)
    | some c =>
      match get_bookmarks cfg server user start c sort tags filt list_name with
      | (.inr err, tr) => some (.json (.dict err), tr)
      | (.inl bs, tr) => some (.json (.list bs), tr)

/-- `search_bookmarks_tool` (`tools.py` lines 68-111): fetch all, then
keep bookmarks whose lowered title or description contains the lowered
query. -/
def search_bookmarks_tool (cfg : Config) (server : Server) (fuel : Nat)
    (exc : Option String) (query : String) (tags : Option String)
    (filt : String) (user : Option String) :
    Option (ToolResult × List Event) :=
  match exc with
  | some e => some (errJson e, [])
  | none =>
    match get_all_bookmarks cfg server fuel user 1 tags filt none with
    | none => none
    | some (.inr err, tr) => some (.json (.dict err), tr)
    | some (.inl bs, tr) =>
      let ql := query.toLower
      some (.json (.list (bs.filter (fun b =>
        strContainsSub b.title.toLower ql ||
        strContainsSub b.desc.toLower ql))), tr)

/-- `get_bookmark_tool` (`tools.py` lines 114-143): fetch all, then
linear scan for exact URL equality. -/
def get_bookmark_tool (cfg : Config) (server : Server) (fuel : Nat)
    (exc : Option String) (url : String) (user : Option String) :
    Option (ToolResult × List Event) :=
  match exc with
  | some e => some (errJson e, [])
  | none =>
    match get_all_bookmarks cfg server fuel user 1 none "all" none with
    | none => none
    | some (.inr err, tr) => some (.json (.dict err), tr)
    | some (.inl bs, tr) =>
      match bs.find? (fun b => b.url == url) with
      | some b => some (.bookmark b, tr)
      | none => some (errJson ("Bookmark not found: " ++ url), tr)

/-- `create_bookmark_tool` (`tools.py` lines 146-188): validates the URL
before any client work, then saves with merge disabled. -/
def create_bookmark_tool (cfg : Config) (server : Server)
    (exc : Option String) (url title desc tags : String)
    (shared read_later : Bool) : Option (ToolResult × List Event) :=
  if !validate_url url then
    some (errJson ("Invalid URL: " ++ url), [])
  else
    match exc with
    | some e => some (errJson e, [])
    | none =>
      let r := save_bookmark cfg server url title desc tags shared
        read_later false
      some (.json r.1, r.2)

/-- `update_bookmark_tool` (`tools.py` lines 191-256): validates the
URL, fetches the full set, locates the existing bookmark, and saves a
complete record with merge enabled, taking each field from the explicit
argument when provided and from the existing record otherwise. -/
def update_bookmark_tool (cfg : Config) (server : Server) (fuel : Nat)
    (exc : Option String) (url : String) (title desc tags : Option String)
    (shared read_later : Option Bool) : Option (ToolResult × List Event) :=
  if !validate_url url then
    some (errJson ("Invalid URL: " ++ url), [])
  else
    match exc with
    | some e => some (errJson e, [])
    | none =>
      match get_all_bookmarks cfg server fuel none 1 none "all" none with
      | none => none
      | some (.inr err, tr) => some (.json (.dict err), tr)
      | some (.inl bs, tr) =>
        match bs.find? (fun b => b.url == url) with
        | none => some (errJson ("Bookmark not found: " ++ url), tr)
        | some existing =>
          let r := save_bookmark cfg server url
            (title.getD existing.title)
            (desc.getD existing.desc)
            (tags.getD existing.tags)
            (shared.getD (existing.shared == "yes"))
            (read_later.getD (existing.readlater == "yes"))
            true
          some (.json r.1, tr ++ r.2)

/-- `delete_bookmark_tool` (`tools.py` lines 259-294): when no truthy
title is supplied, resolve it by scanning the full bookmark set, failing
not-found when no match (or the matched title is empty). -/
def delete_bookmark_tool (cfg : Config) (server : Server) (fuel : Nat)
    (exc : Option String) (url : String) (title : Option String) :
    Option (ToolResult × List Event) :=
  match exc with
  | some e => some (errJson e, [])
  | none =>
    match (match title with
           | some t => if t == "" then none else some t
           | none => none) with
    | some t =>
      let r := delete_bookmark cfg server url t
      some (.json r.1, r.2)
    | none =>
      match get_all_bookmarks cfg server fuel none 1 none "all" none with
      | none => none
      | some (.inr err, tr) => some (.json (.dict err), tr)
      | some (.inl bs, tr) =>
        match (bs.find? (fun b => b.url == url)).map (fun b => b.title) with
        | none => some (errJson ("Bookmark not found: " ++ url), tr)
        | some bt =>
          if bt == "" then some (errJson ("Bookmark not found: " ++ url), tr)
          else
            let r := delete_bookmark cfg server url bt
            some (.json r.1, tr ++ r.2)

/-- `get_recent_bookmarks_tool` (`tools.py` lines 297-324): one page,
sorted by update time. -/
def get_recent_bookmarks_tool (cfg : Config) (server : Server)
    (exc : Option String) (count : Nat) (user : Option String) :
    Option (ToolResult × List Event) :=
  match exc with
  | some e => some (errJson e, [])
  | none =>
    match get_bookmarks cfg server user 0 count 1 none "all" none with
    | (.inr err, tr) => some (.json (.dict err), tr)
    | (.inl bs, tr) => some (.json (.list bs), tr)

/-- `get_annotations_tool` (`tools.py` lines 327-357): fetch all, find
the bookmark by URL, return its annotation list. -/
def get_annotations_tool (cfg : Config) (server : Server) (fuel : Nat)
    (exc : Option String) (url : String) (user : Option String) :
    Option (ToolResult × List Event) :=
  match exc with
  | some e => some (errJson e, [])
  | none =>
    match get_all_bookmarks cfg server fuel user 1 none "all" none with
    | none => none
    | some (.inr err, tr) => some (.json (.dict err), tr)
    | some (.inl bs, tr) =>
      match bs.find? (fun b => b.url == url) with
      | some b => some (.annotations b.annotations, tr)
      | none => some (errJson ("Bookmark not found: " ++ url), tr)

/-- `bulk_create_bookmarks_tool` (`tools.py` lines 360-381): delegates
to the rate-limited bulk save. -/
def bulk_create_bookmarks_tool (cfg : Config) (server : Server)
    (exc : Option String) (items : List BulkItem) (delay : ℚ) :
    Option (ToolResult × List Event) :=
  match exc with
  | some e => some (errJson e, [])
  | none =>
    let r := bulk_save_bookmarks cfg server items delay
    some (.summary r.1, r.2)

lemma pyStrip_eq_nil_iff (l : List Char) :
    pyStrip l = [] ↔ ∀ c ∈ l, isWs c = true := by
  unfold pyStrip
  rw [List.reverse_eq_nil_iff, List.dropWhile_eq_nil_iff]
  constructor
  · intro h c hc
    rcases List.mem_append.mp
        ((List.takeWhile_append_dropWhile isWs l) ▸ hc) with h1 | h2
    · exact List.mem_takeWhile_imp h1
    · exact h c (List.mem_reverse.mpr h2)
  · intro h c hc
    have hmem : c ∈ l :=
      (List.takeWhile_append_dropWhile isWs l) ▸
        List.mem_append.mpr (Or.inr (List.mem_reverse.mp hc))
    exact h c hmem

lemma splitComma_ne_nil : ∀ l : List Char, splitComma l ≠ []
  | [] => by simp [splitComma]
  | c :: rest => by
    simp only [splitComma]
    rcases he : splitComma rest with _ | ⟨h1, t⟩
    · simp
    · split
      · simp
      · split <;> simp

lemma splitComma_no_comma (l : List Char) (h : ',' ∉ l) :
    splitComma l = [l] := by
  induction l with
  | nil => rfl
  | cons c rest ih =>
    have hc : ¬ c = ',' := fun e => h (e ▸ List.mem_cons_self c rest)
    have hr : ',' ∉ rest := fun m => h (List.mem_cons_of_mem _ m)
    simp [splitComma, ih hr, hc]

lemma splitComma_append_comma (x rest : List Char) (h : ',' ∉ x) :
    splitComma (x ++ ',' :: rest) = x :: splitComma rest := by
  induction x with
  | nil =>
    obtain ⟨h1, t, ht⟩ : ∃ h1 t, splitComma rest = h1 :: t := by
      rcases he : splitComma rest with _ | ⟨a, b⟩
      · exact absurd he (splitComma_ne_nil rest)
      · exact ⟨a, b, rfl⟩
    simp [splitComma, ht]
  | cons c x ih =>
    have hc : ¬ c = ',' := fun e => h (e ▸ List.mem_cons_self c x)
    have hx : ',' ∉ x := fun m => h (List.mem_cons_of_mem _ m)
    show splitComma (c :: (x ++ ',' :: rest)) = (c :: x) :: splitComma rest
    simp only [splitComma]
    rw [ih hx]
    simp [hc]

lemma splitComma_joinComma : ∀ xss : List (List Char), xss ≠ [] →
    (∀ l ∈ xss, ',' ∉ l) → splitComma (joinComma xss) = xss
  | [], h, _ => absurd rfl h
  | [x], _, hc => by
    simpa [joinComma] using splitComma_no_comma x (hc x (by simp))
  | x :: y :: rest, _, hc => by
    have hj : joinComma (x :: y :: rest) = x ++ ',' :: joinComma (y :: rest) := rfl
    rw [hj, splitComma_append_comma x _ (hc x (by simp)),
      splitComma_joinComma (y :: rest) (by simp)
        (fun l hl => hc l (List.mem_cons_of_mem _ hl))]

lemma filterMap_strip_id (xs : List String)
    (h : ∀ x ∈ xs, x.data ≠ [] ∧ pyStrip x.data = x.data) :
    (xs.map String.data).filterMap (fun t =>
      if pyStrip t = [] then none else some (String.mk (pyStrip t))) = xs := by
  induction xs with
  | nil => rfl
  | cons x t ih =>
    obtain ⟨hne, hst⟩ := h x (List.mem_cons_self x t)
    simp only [List.map_cons, List.filterMap_cons, hst]
    rw [if_neg hne]
    have hmk : String.mk x.data = x := rfl
    rw [hmk, ih (fun y hy => h y (List.mem_cons_of_mem _ hy))]

/-- C9 (amended): for every sequence of non-empty, trimmed,
comma-free tag strings, `parse_tags (tags_to_string xs) = xs`, and
`parse_tags ""` is the empty sequence. -/
theorem C9_tag_round_trip :
    (∀ xs : List String,
      (∀ x ∈ xs, x.data ≠ [] ∧ pyStrip x.data = x.data ∧ ',' ∉ x.data) →
      parse_tags (tags_to_string xs) = xs)
    ∧ parse_tags "" = [] := by
  constructor
  · intro xs h
    match xs with
    | [] => rfl
    | x :: t =>
      obtain ⟨hne, hst, hcm⟩ := h x (List.mem_cons_self x t)
      have hdata : (tags_to_string (x :: t)).data
          = joinComma ((x :: t).map String.data) := rfl
      have hjoin : ¬ pyStrip (joinComma ((x :: t).map String.data)) = [] := by
        intro hnil
        have hall := (pyStrip_eq_nil_iff _).mp hnil
        have hallx : ∀ c ∈ x.data, isWs c = true := by
          intro c hc
          apply hall
          cases t with
          | nil => simpa [joinComma] using hc
          | cons y r =>
            have : joinComma ((x :: y :: r).map String.data)
                = x.data ++ ',' :: joinComma ((y :: r).map String.data) := rfl
            rw [this]
            exact List.mem_append.mpr (Or.inl hc)
        have hz : pyStrip x.data = [] := (pyStrip_eq_nil_iff _).mpr hallx
        rw [hst] at hz
        exact hne hz
      unfold parse_tags
      rw [hdata, if_neg hjoin,
        splitComma_joinComma ((x :: t).map String.data) (by simp)
          (by
            intro l hl
            obtain ⟨y, hy, rfl⟩ := List.mem_map.mp hl
            exact (h y hy).2.2),
        filterMap_strip_id (x :: t) (fun y hy => ⟨(h y hy).1, (h y hy).2.1⟩)]
  · rfl

/-- C9 witness: the round-trip theorem applied to the concrete tag list
["tag1", "tag2"]. -/
theorem C9_tag_round_trip_witness :
    (∀ x ∈ ["tag1", "tag2"], x.data ≠ [] ∧ pyStrip x.data = x.data
      ∧ ',' ∉ x.data)
    ∧ parse_tags (tags_to_string ["tag1", "tag2"]) = ["tag1", "tag2"] :=
  ⟨by decide, C9_tag_round_trip.1 ["tag1", "tag2"] (by decide)⟩

/-- C9 is false exactly as stated: the tag "a,b" is non-empty and
trimmed, yet `parse_tags (tags_to_string ["a,b"])` splits it back into
two tags, so the round-trip law fails for tag strings containing a
comma. -/
theorem C9_comma_tag_counterexample :
    ("a,b" : String).data ≠ []
    ∧ pyStrip ("a,b" : String).data = ("a,b" : String).data
    ∧ parse_tags (tags_to_string ["a,b"]) = ["a", "b"]
    ∧ ¬ (∀ xs : List String,
        (∀ x ∈ xs, x.data ≠ [] ∧ pyStrip x.data = x.data) →
        parse_tags (tags_to_string xs) = xs) := by
  refine ⟨by decide, by decide, by decide, fun h => ?_⟩
  exact absurd (h ["a,b"] (by decide)) (by decide)

@[simp] lemma sleeps_nil : sleeps [] = [] := rfl

@[simp] lemma sleeps_cons_attempt (r : Request) (i : Nat) (tr : List Event) :
    sleeps (Event.attempt r i :: tr) = sleeps tr := rfl

@[simp] lemma sleeps_cons_sleep (q : ℚ) (tr : List Event) :
    sleeps (Event.sleep q :: tr) = q :: sleeps tr := rfl

@[simp] lemma sleeps_append (a b : List Event) :
    sleeps (a ++ b) = sleeps a ++ sleeps b := by
  simp [sleeps]

@[simp] lemma httpAttempts_nil : httpAttempts [] = [] := rfl

@[simp] lemma httpAttempts_cons_attempt (r : Request) (i : Nat)
    (tr : List Event) :
    httpAttempts (Event.attempt r i :: tr) = r :: httpAttempts tr := rfl

@[simp] lemma httpAttempts_cons_sleep (q : ℚ) (tr : List Event) :
    httpAttempts (Event.sleep q :: tr) = httpAttempts tr := rfl

@[simp] lemma httpAttempts_append (a b : List Event) :
    httpAttempts (a ++ b) = httpAttempts a ++ httpAttempts b := by
  simp [httpAttempts]

lemma retryLoop_json (cfg : Config) (server : Server) (req : Request)
    (fuel attempt : Nat) (body : String) (v : PyVal)
    (h : server req attempt = .resp 200 body (some v)) :
    retryLoop cfg server req (fuel + 1) attempt = (v, [.attempt req attempt]) := by
  simp [retryLoop, h]

lemma retryLoop_text (cfg : Config) (server : Server) (req : Request)
    (fuel attempt : Nat) (body : String)
    (h : server req attempt = .resp 200 body none) :
    retryLoop cfg server req (fuel + 1) attempt
      = (.dict [("message", body)], [.attempt req attempt]) := by
  simp [retryLoop, h]

lemma retryLoop_401 (cfg : Config) (server : Server) (req : Request)
    (fuel attempt : Nat) (b : String) (j : Option PyVal)
    (h : server req attempt = .resp 401 b j) :
    retryLoop cfg server req (fuel + 1) attempt
      = (.dict [("error", "Authentication failed: " ++ b)],
         [.attempt req attempt]) := by
  simp [retryLoop, h]

lemma retryLoop_404 (cfg : Config) (server : Server) (req : Request)
    (fuel attempt : Nat) (b : String) (j : Option PyVal)
    (h : server req attempt = .resp 404 b j) :
    retryLoop cfg server req (fuel + 1) attempt
      = (.dict [("error", "Resource not found: " ++ b)],
         [.attempt req attempt]) := by
  simp [retryLoop, h]

lemma retryLoop_exn (cfg : Config) (server : Server) (req : Request)
    (fuel attempt : Nat) (m : String)
    (h : server req attempt = .exn m) :
    retryLoop cfg server req (fuel + 1) attempt
      = (.dict [("error", "Request failed: " ++ m)],
         [.attempt req attempt]) := by
  simp [retryLoop, h]

lemma retryLoop_step_503 (cfg : Config) (server : Server) (req : Request)
    (fuel attempt : Nat) (b : String) (j : Option PyVal)
    (h : server req attempt = .resp 503 b j)
    (hlt : attempt < cfg.maxRetries - 1) :
    retryLoop cfg server req (fuel + 1) attempt
      = ((retryLoop cfg server req fuel (attempt + 1)).1,
         .attempt req attempt :: .sleep (cfg.retryBackoff ^ attempt) ::
           (retryLoop cfg server req fuel (attempt + 1)).2) := by
  simp [retryLoop, h, hlt]

lemma retryLoop_step_400 (cfg : Config) (server : Server) (req : Request)
    (fuel attempt : Nat) (b : String) (j : Option PyVal)
    (h : server req attempt = .resp 400 b j)
    (hlt : attempt < cfg.maxRetries - 1) :
    retryLoop cfg server req (fuel + 1) attempt
      = ((retryLoop cfg server req fuel (attempt + 1)).1,
         .attempt req attempt :: .sleep (cfg.retryBackoff ^ attempt) ::
           (retryLoop cfg server req fuel (attempt + 1)).2) := by
  simp [retryLoop, h, hlt]

lemma retryLoop_step_timeout (cfg : Config) (server : Server)
    (req : Request) (fuel attempt : Nat)
    (h : server req attempt = .timeout)
    (hlt : attempt < cfg.maxRetries - 1) :
    retryLoop cfg server req (fuel + 1) attempt
      = ((retryLoop cfg server req fuel (attempt + 1)).1,
         .attempt req attempt :: .sleep (cfg.retryBackoff ^ attempt) ::
           (retryLoop cfg server req fuel (attempt + 1)).2) := by
  simp [retryLoop, h, hlt]

lemma requestWithRetry_json (cfg : Config) (server : Server)
    (method endpoint : String) (params data : List (String × String))
    (body : String) (v : PyVal) (hm : 1 ≤ cfg.maxRetries)
    (h : server (buildReq cfg method endpoint params data) 0
      = .resp 200 body (some v)) :
    requestWithRetry cfg server method endpoint params data
      = (v, [.attempt (buildReq cfg method endpoint params data) 0]) := by
  obtain ⟨k, hk⟩ := Nat.exists_eq_succ_of_ne_zero
    (by omega : cfg.maxRetries ≠ 0)
  unfold requestWithRetry
  rw [hk]
  exact retryLoop_json cfg server _ k 0 body v h

lemma requestWithRetry_404 (cfg : Config) (server : Server)
    (method endpoint : String) (params data : List (String × String))
    (b : String) (j : Option PyVal) (hm : 1 ≤ cfg.maxRetries)
    (h : server (buildReq cfg method endpoint params data) 0
      = .resp 404 b j) :
    requestWithRetry cfg server method endpoint params data
      = (.dict [("error", "Resource not found: " ++ b)],
         [.attempt (buildReq cfg method endpoint params data) 0]) := by
  obtain ⟨k, hk⟩ := Nat.exists_eq_succ_of_ne_zero
    (by omega : cfg.maxRetries ≠ 0)
  unfold requestWithRetry
  rw [hk]
  exact retryLoop_404 cfg server _ k 0 b j h

/-- C3: an HTTP 401 response on any attempt is terminal — the client
returns the authentication-failure error built from that attempt, with
no further attempts and zero backoff sleeps, however many attempts
remain in the retry budget. -/
theorem C3_auth_failure_immediate (cfg : Config) (server : Server)
    (req : Request) (i : Nat) (b : String) (j : Option PyVal) :
    i < cfg.maxRetries →
    server req i = .resp 401 b j →
    retryLoop cfg server req (cfg.maxRetries - i) i
      = (.dict [("error", "Authentication failed: " ++ b)],
         [.attempt req i])
    ∧ sleeps (retryLoop cfg server req (cfg.maxRetries - i) i).2 = [] := by
  intro hi hs
  obtain ⟨f, hf⟩ : ∃ f, cfg.maxRetries - i = f + 1 :=
    ⟨cfg.maxRetries - i - 1, by omega⟩
  rw [hf, retryLoop_401 cfg server req f i b j hs]
  simp

/-- C8: a non-timeout transport fault on any attempt is terminal — the
client immediately returns an error embedding the fault description,
with no retry and no backoff sleep, however many attempts remain. -/
theorem C8_transport_fault_terminal (cfg : Config) (server : Server)
    (req : Request) (i : Nat) (m : String) :
    i < cfg.maxRetries →
    server req i = .exn m →
    retryLoop cfg server req (cfg.maxRetries - i) i
      = (.dict [("error", "Request failed: " ++ m)], [.attempt req i])
    ∧ sleeps (retryLoop cfg server req (cfg.maxRetries - i) i).2 = [] := by
  intro hi hs
  obtain ⟨f, hf⟩ : ∃ f, cfg.maxRetries - i = f + 1 :=
    ⟨cfg.maxRetries - i - 1, by omega⟩
  rw [hf, retryLoop_exn cfg server req f i m hs]
  simp

/-- Shared concrete configuration for witnesses: api key "k", user
"alice", 3 retries, backoff base 2, page cap 100. -/
def cfgW : Config :=
  { apiKey := "k", defaultUser := "alice", maxRetries := 3,
    retryBackoff := 2, maxBookmarksPerRequest := 100 }

/-- A concrete request used by retry-level witnesses. -/
def reqW : Request :=
  { method := "GET", endpoint := "bookmarks", params := [("key", "k")],
    data := [] }

/-- A server that always answers 401. -/
def serverW401 : Server := fun _ _ => .resp 401 "bad credentials" none

/-- A server that always reports a connection fault. -/
def serverWExn : Server := fun _ _ => .exn "Cannot connect to host"

/-- C3 witness: the 401 theorem applied at attempt 0 of the concrete
401-answering server. -/
theorem C3_auth_failure_immediate_witness :
    ((0 : Nat) < cfgW.maxRetries
      ∧ serverW401 reqW 0 = .resp 401 "bad credentials" none)
    ∧ retryLoop cfgW serverW401 reqW (cfgW.maxRetries - 0) 0
        = (.dict [("error", "Authentication failed: bad credentials")],
           [.attempt reqW 0]) :=
  ⟨⟨by decide, rfl⟩,
    (C3_auth_failure_immediate cfgW serverW401 reqW 0 "bad credentials"
      none (by decide) rfl).1⟩

/-- C8 witness: the transport-fault theorem applied at attempt 0 of the
concrete faulting server. -/
theorem C8_transport_fault_terminal_witness :
    ((0 : Nat) < cfgW.maxRetries
      ∧ serverWExn reqW 0 = .exn "Cannot connect to host")
    ∧ retryLoop cfgW serverWExn reqW (cfgW.maxRetries - 0) 0
        = (.dict [("error", "Request failed: Cannot connect to host")],
           [.attempt reqW 0]) :=
  ⟨⟨by decide, rfl⟩,
    (C8_transport_fault_terminal cfgW serverWExn reqW 0
      "Cannot connect to host" (by decide) rfl).1⟩

/-- An attempt outcome the retry loop treats as transient: HTTP 400,
HTTP 503, or a network timeout. -/
def Transient (a : Attempt) : Prop :=
  (∃ b j, a = .resp 400 b j) ∨ (∃ b j, a = .resp 503 b j) ∨ a = .timeout

/-- The exhaustion error message produced after the final attempt,
depending on the outcome of that attempt: all three messages state the
configured attempt count, and the timeout one cites "timeout". -/
def exhaustMsg (cfg : Config) (server : Server) (req : Request)
    (msg : String) : Prop :=
  (∃ b j, server req (cfg.maxRetries - 1) = .resp 400 b j
    ∧ msg = "Request failed after " ++ toString cfg.maxRetries ++
        " attempts: " ++ b)
  ∨ (∃ b j, server req (cfg.maxRetries - 1) = .resp 503 b j
    ∧ msg = "Server busy after " ++ toString cfg.maxRetries ++
        " attempts: " ++ b)
  ∨ (server req (cfg.maxRetries - 1) = .timeout
    ∧ msg = "Request timeout after " ++ toString cfg.maxRetries ++
        " attempts")

lemma retry_exhaust (cfg : Config) (server : Server) (req : Request) :
    ∀ k attempt : Nat, attempt + k + 1 = cfg.maxRetries →
    (∀ i, attempt ≤ i → i < cfg.maxRetries → Transient (server req i)) →
    sleeps (retryLoop cfg server req (k + 1) attempt).2
        = (List.range' attempt k).map (fun i => cfg.retryBackoff ^ i)
    ∧ ∃ msg, (retryLoop cfg server req (k + 1) attempt).1
        = PyVal.dict [("error", msg)] ∧ exhaustMsg cfg server req msg := by
  intro k
  induction k with
  | zero =>
    intro attempt hk htr
    have ha : attempt = cfg.maxRetries - 1 := by omega
    have hnot : ¬ attempt < cfg.maxRetries - 1 := by omega
    rcases htr attempt le_rfl (by omega) with ⟨b, j, hb⟩ | ⟨b, j, hb⟩ | hb
    · refine ⟨by simp [retryLoop, hb, hnot],
        "Request failed after " ++ toString cfg.maxRetries ++
          " attempts: " ++ b,
        by simp [retryLoop, hb, hnot], Or.inl ⟨b, j, ha ▸ hb, rfl⟩⟩
    · refine ⟨by simp [retryLoop, hb, hnot],
        "Server busy after " ++ toString cfg.maxRetries ++
          " attempts: " ++ b,
        by simp [retryLoop, hb, hnot], Or.inr (Or.inl ⟨b, j, ha ▸ hb, rfl⟩)⟩
    · refine ⟨by simp [retryLoop, hb, hnot],
        "Request timeout after " ++ toString cfg.maxRetries ++ " attempts",
        by simp [retryLoop, hb, hnot], Or.inr (Or.inr ⟨ha ▸ hb, rfl⟩)⟩
  | succ k ih =>
    intro attempt hk htr
    have hlt : attempt < cfg.maxRetries - 1 := by omega
    obtain ⟨hsl, msg, hres, hmsg⟩ := ih (attempt + 1) (by omega)
      (fun i h1 h2 => htr i (by omega) h2)
    rcases htr attempt le_rfl (by omega) with ⟨b, j, hb⟩ | ⟨b, j, hb⟩ | hb
    · rw [retryLoop_step_400 cfg server req (k + 1) attempt b j hb hlt]
      refine ⟨?_, msg, by simpa using hres, hmsg⟩
      simp [hsl]
      rw [List.range'_succ, List.map_cons]
    · rw [retryLoop_step_503 cfg server req (k + 1) attempt b j hb hlt]
      refine ⟨?_, msg, by simpa using hres, hmsg⟩
      simp [hsl]
      rw [List.range'_succ, List.map_cons]
    · rw [retryLoop_step_timeout cfg server req (k + 1) attempt hb hlt]
      refine ⟨?_, msg, by simpa using hres, hmsg⟩
      simp [hsl]
      rw [List.range'_succ, List.map_cons]

/-- C2: requests whose attempts all yield transient outcomes (HTTP 400,
HTTP 503 or a timeout) are retried with deterministic backoff sleeps of
`retryBackoff ^ attempt` seconds for the zero-based attempt indices 0 to
maxRetries-2, and on exhaustion return an error whose message states the
configured attempt count (citing "timeout" for a final timeout);
moreover with maxRetries = 3 a 503, 503, 200 sequence yields the parsed
success payload after sleeps of exactly `backoff^0` and `backoff^1`
seconds. -/
theorem C2_retry_backoff (cfg : Config) (server : Server)
    (method endpoint : String) (params data : List (String × String)) :
    (1 ≤ cfg.maxRetries →
      (∀ i, i < cfg.maxRetries →
        Transient (server (buildReq cfg method endpoint params data) i)) →
      sleeps (requestWithRetry cfg server method endpoint params data).2
          = (List.range (cfg.maxRetries - 1)).map
              (fun i => cfg.retryBackoff ^ i)
      ∧ ∃ msg, (requestWithRetry cfg server method endpoint params data).1
          = PyVal.dict [("error", msg)]
          ∧ exhaustMsg cfg server (buildReq cfg method endpoint params data)
              msg)
    ∧ (∀ (b0 b1 body : String) (j0 j1 : Option PyVal) (v : PyVal),
        cfg.maxRetries = 3 →
        server (buildReq cfg method endpoint params data) 0
          = .resp 503 b0 j0 →
        server (buildReq cfg method endpoint params data) 1
          = .resp 503 b1 j1 →
        server (buildReq cfg method endpoint params data) 2
          = .resp 200 body (some v) →
        requestWithRetry cfg server method endpoint params data
          = (v, [.attempt (buildReq cfg method endpoint params data) 0,
                 .sleep (cfg.retryBackoff ^ 0),
                 .attempt (buildReq cfg method endpoint params data) 1,
                 .sleep (cfg.retryBackoff ^ 1),
                 .attempt (buildReq cfg method endpoint params data) 2])
        ∧ (sleeps
            (requestWithRetry cfg server method endpoint params data).2).sum
            = cfg.retryBackoff ^ 0 + cfg.retryBackoff ^ 1) := by
  constructor
  · intro h1 htr
    obtain ⟨k, hk⟩ := Nat.exists_eq_succ_of_ne_zero
      (by omega : cfg.maxRetries ≠ 0)
    have hmain := retry_exhaust cfg server
      (buildReq cfg method endpoint params data) k 0 (by omega)
      (fun i _ h2 => htr i h2)
    unfold requestWithRetry
    rw [hk, List.range_eq_range']
    simpa using hmain
  · intro b0 b1 body j0 j1 v hm h0 h1 h2
    have hlt0 : 0 < cfg.maxRetries - 1 := by omega
    have hlt1 : 1 < cfg.maxRetries - 1 := by omega
    have hstep : requestWithRetry cfg server method endpoint params data
        = (v, [.attempt (buildReq cfg method endpoint params data) 0,
               .sleep (cfg.retryBackoff ^ 0),
               .attempt (buildReq cfg method endpoint params data) 1,
               .sleep (cfg.retryBackoff ^ 1),
               .attempt (buildReq cfg method endpoint params data) 2]) := by
      unfold requestWithRetry
      rw [hm, show (3 : ℕ) = 2 + 1 from rfl,
        retryLoop_step_503 cfg server _ 2 0 b0 j0 h0 hlt0,
        show (2 : ℕ) = 1 + 1 from rfl,
        retryLoop_step_503 cfg server _ 1 1 b1 j1 h1 hlt1,
        show (1 : ℕ) = 0 + 1 from rfl,
        retryLoop_json cfg server _ 0 2 body v h2]
    refine ⟨hstep, ?_⟩
    rw [hstep]
    simp

/-- A server that times out on every attempt. -/
def serverWTimeout : Server := fun _ _ => .timeout

/-- A server answering 503 on the first two attempts and 200 with an
empty bookmark list on the third. -/
def serverW503 : Server := fun _ i =>
  if i == 0 then .resp 503 "busy0" none
  else if i == 1 then .resp 503 "busy1" none
  else .resp 200 "" (some (.list []))

/-- C2 witness: the backoff theorem applied to the all-timeout server
(exhaustion branch) and to the 503/503/200 server (success branch) at
the concrete configuration. -/
theorem C2_retry_backoff_witness :
    (1 ≤ cfgW.maxRetries
      ∧ (∀ i, i < cfgW.maxRetries →
          Transient (serverWTimeout (buildReq cfgW "GET" "bookmarks" [] []) i))
      ∧ (sleeps (requestWithRetry cfgW serverWTimeout "GET" "bookmarks"
            [] []).2
          = (List.range (cfgW.maxRetries - 1)).map
              (fun i => cfgW.retryBackoff ^ i)
        ∧ ∃ msg,
            (requestWithRetry cfgW serverWTimeout "GET" "bookmarks" [] []).1
              = PyVal.dict [("error", msg)]
            ∧ exhaustMsg cfgW serverWTimeout
                (buildReq cfgW "GET" "bookmarks" [] []) msg))
    ∧ (cfgW.maxRetries = 3
      ∧ serverW503 (buildReq cfgW "GET" "bookmarks" [] []) 0
          = .resp 503 "busy0" none
      ∧ serverW503 (buildReq cfgW "GET" "bookmarks" [] []) 1
          = .resp 503 "busy1" none
      ∧ serverW503 (buildReq cfgW "GET" "bookmarks" [] []) 2
          = .resp 200 "" (some (.list []))
      ∧ (requestWithRetry cfgW serverW503 "GET" "bookmarks" [] []
            = (.list [],
               [.attempt (buildReq cfgW "GET" "bookmarks" [] []) 0,
                .sleep (cfgW.retryBackoff ^ 0),
                .attempt (buildReq cfgW "GET" "bookmarks" [] []) 1,
                .sleep (cfgW.retryBackoff ^ 1),
                .attempt (buildReq cfgW "GET" "bookmarks" [] []) 2])
        ∧ (sleeps (requestWithRetry cfgW serverW503 "GET" "bookmarks"
              [] []).2).sum
            = cfgW.retryBackoff ^ 0 + cfgW.retryBackoff ^ 1)) :=
  ⟨⟨by decide, fun _ _ => Or.inr (Or.inr rfl),
    (C2_retry_backoff cfgW serverWTimeout "GET" "bookmarks" [] []).1
      (by decide) (fun _ _ => Or.inr (Or.inr rfl))⟩,
   by decide, rfl, rfl, rfl,
   (C2_retry_backoff cfgW serverW503 "GET" "bookmarks" [] []).2
     "busy0" "busy1" "" none none (.list []) rfl rfl rfl rfl⟩

lemma requestWithRetry_text (cfg : Config) (server : Server)
    (method endpoint : String) (params data : List (String × String))
    (body : String) (hm : 1 ≤ cfg.maxRetries)
    (h : server (buildReq cfg method endpoint params data) 0
      = .resp 200 body none) :
    requestWithRetry cfg server method endpoint params data
      = (.dict [("message", body)],
         [.attempt (buildReq cfg method endpoint params data) 0]) := by
  obtain ⟨k, hk⟩ := Nat.exists_eq_succ_of_ne_zero
    (by omega : cfg.maxRetries ≠ 0)
  unfold requestWithRetry
  rw [hk]
  exact retryLoop_text cfg server _ k 0 body h

lemma get_bookmarks_list (cfg : Config) (server : Server)
    (user : Option String) (start count sort : Nat) (tags : Option String)
    (filt : String) (ln : Option String) (body : String)
    (l : List Bookmark) (hm : 1 ≤ cfg.maxRetries)
    (h : server (getReq cfg (user.getD cfg.defaultUser) start count sort
        tags filt ln) 0 = .resp 200 body (some (.list l))) :
    get_bookmarks cfg server user start count sort tags filt ln
      = (.inl l, [.attempt (getReq cfg (user.getD cfg.defaultUser) start
          count sort tags filt ln) 0]) := by
  simp only [get_bookmarks]
  rw [requestWithRetry_json cfg server "GET" "bookmarks"
    (bookmarksParams cfg (user.getD cfg.defaultUser) start count sort
      tags filt ln) [] body (.list l) hm h]
  simp [getReq]

lemma get_bookmarks_err404 (cfg : Config) (server : Server)
    (user : Option String) (start count sort : Nat) (tags : Option String)
    (filt : String) (ln : Option String) (b : String) (j : Option PyVal)
    (hm : 1 ≤ cfg.maxRetries)
    (h : server (getReq cfg (user.getD cfg.defaultUser) start count sort
        tags filt ln) 0 = .resp 404 b j) :
    get_bookmarks cfg server user start count sort tags filt ln
      = (.inr [("error", "Resource not found: " ++ b)],
         [.attempt (getReq cfg (user.getD cfg.defaultUser) start count
            sort tags filt ln) 0]) := by
  simp only [get_bookmarks]
  rw [requestWithRetry_404 cfg server "GET" "bookmarks"
    (bookmarksParams cfg (user.getD cfg.defaultUser) start count sort
      tags filt ln) [] b j hm h]
  simp [getReq]

lemma getAllAux_page (cfg : Config) (server : Server) (user : Option String)
    (sort : Nat) (tags : Option String) (filt : String)
    (ln : Option String) (fuel start : Nat) (acc : List Bookmark)
    (tr : List Event) (l : List Bookmark) (tr2 : List Event)
    (h : get_bookmarks cfg server user start 100 sort tags filt ln
      = (.inl l, tr2)) :
    getAllAux cfg server user sort tags filt ln (fuel + 1) start acc tr
      = (if l.isEmpty then some (.inl acc, tr ++ tr2)
         else if l.length < 100 then some (.inl (acc ++ l), tr ++ tr2)
         else getAllAux cfg server user sort tags filt ln fuel (start + 100)
           (acc ++ l) (tr ++ tr2)) := by
  simp only [getAllAux, h]

lemma getAllAux_err (cfg : Config) (server : Server) (user : Option String)
    (sort : Nat) (tags : Option String) (filt : String)
    (ln : Option String) (fuel start : Nat) (acc : List Bookmark)
    (tr : List Event) (err : List (String × String)) (tr2 : List Event)
    (h : get_bookmarks cfg server user start 100 sort tags filt ln
      = (.inr err, tr2)) :
    getAllAux cfg server user sort tags filt ln (fuel + 1) start acc tr
      = some (.inr err, tr ++ tr2) := by
  simp only [getAllAux, h]

lemma isEmpty_false_of_length_pos (l : List Bookmark) (h : 0 < l.length) :
    l.isEmpty = false := by
  cases l
  · simp at h
  · rfl

/-- C10 (amended): a call to `get_bookmarks` whose HTTP layer succeeds
with status 200 but whose parsed payload is not a list and is not a dict
containing an "error" key — including a non-JSON body, which the retry
layer wraps as a message dict — returns the empty list of bookmarks. -/
theorem C10_nonlist_payload_empty (cfg : Config) (server : Server)
    (user : Option String) (start count sort : Nat) (tags : Option String)
    (filt : String) (ln : Option String) :
    (∀ (body : String) (v : PyVal), 1 ≤ cfg.maxRetries →
      server (getReq cfg (user.getD cfg.defaultUser) start count sort
          tags filt ln) 0 = .resp 200 body (some v) →
      (∀ l, v ≠ PyVal.list l) →
      (∀ fs, v = PyVal.dict fs → fs.any (fun p => p.1 == "error") = false) →
      get_bookmarks cfg server user start count sort tags filt ln
        = (.inl [], [.attempt (getReq cfg (user.getD cfg.defaultUser)
            start count sort tags filt ln) 0]))
    ∧ (∀ body : String, 1 ≤ cfg.maxRetries →
      server (getReq cfg (user.getD cfg.defaultUser) start count sort
          tags filt ln) 0 = .resp 200 body none →
      get_bookmarks cfg server user start count sort tags filt ln
        = (.inl [], [.attempt (getReq cfg (user.getD cfg.defaultUser)
            start count sort tags filt ln) 0])) := by
  constructor
  · intro body v hm h hl hd
    simp only [get_bookmarks]
    rw [requestWithRetry_json cfg server "GET" "bookmarks"
      (bookmarksParams cfg (user.getD cfg.defaultUser) start count sort
        tags filt ln) [] body v hm h]
    cases v with
    | list l => exact absurd rfl (hl l)
    | dict fs => simp [hd fs rfl, getReq]
    | other s => simp [getReq]
  · intro body hm h
    simp only [get_bookmarks]
    rw [requestWithRetry_text cfg server "GET" "bookmarks"
      (bookmarksParams cfg (user.getD cfg.defaultUser) start count sort
        tags filt ln) [] body hm h]
    simp [getReq]

/-- A server answering 200 with the JSON object containing an "error"
key. -/
def serverWErrDict : Server :=
  fun _ _ => .resp 200 "" (some (.dict [("error", "boom")]))

/-- C10 is false exactly as stated: a 200 response whose parsed payload
is the non-list dict containing the key "error" is passed through by
`get_bookmarks` as that error dict, not replaced by the empty bookmark
list, so such a success payload is distinguishable from a user having no
bookmarks. -/
theorem C10_errdict_counterexample :
    serverWErrDict (getReq cfgW cfgW.defaultUser 0 100 1 none "all" none) 0
        = .resp 200 "" (some (.dict [("error", "boom")]))
    ∧ get_bookmarks cfgW serverWErrDict none 0 100 1 none "all" none
        = (.inr [("error", "boom")],
           [.attempt (getReq cfgW cfgW.defaultUser 0 100 1 none "all" none) 0])
    ∧ (get_bookmarks cfgW serverWErrDict none 0 100 1 none "all" none).1
        ≠ .inl ([] : List Bookmark) := by
  refine ⟨rfl, by decide, by decide⟩

/-- A server answering 200 with a non-list, non-dict JSON payload. -/
def serverWOther : Server := fun _ _ => .resp 200 "" (some (.other "ok"))

/-- A server answering 200 with a body that is not JSON at all. -/
def serverWText : Server := fun _ _ => .resp 200 "plain text" none

/-- C10 witness: the amended theorem applied to a 200 response carrying
a non-list JSON payload and to a 200 response carrying a non-JSON
body. -/
theorem C10_nonlist_payload_empty_witness :
    (1 ≤ cfgW.maxRetries
      ∧ serverWOther (getReq cfgW cfgW.defaultUser 0 100 1 none "all" none) 0
          = .resp 200 "" (some (.other "ok"))
      ∧ get_bookmarks cfgW serverWOther none 0 100 1 none "all" none
          = (.inl [], [.attempt (getReq cfgW cfgW.defaultUser 0 100 1 none
              "all" none) 0]))
    ∧ (serverWText (getReq cfgW cfgW.defaultUser 0 100 1 none "all" none) 0
          = .resp 200 "plain text" none
      ∧ get_bookmarks cfgW serverWText none 0 100 1 none "all" none
          = (.inl [], [.attempt (getReq cfgW cfgW.defaultUser 0 100 1 none
              "all" none) 0])) :=
  ⟨⟨by decide, rfl,
    (C10_nonlist_payload_empty cfgW serverWOther none 0 100 1 none "all"
        none).1 "" (.other "ok") (by decide) rfl (fun _ h => nomatch h)
      (fun _ h => nomatch h)⟩,
   rfl,
   (C10_nonlist_payload_empty cfgW serverWText none 0 100 1 none "all"
       none).2 "plain text" (by decide) rfl⟩

/-- C4: auto-pagination fetches pages at offsets 0, 100, 200, ...,
concatenates them, and stops exactly at the first short page — against
pages of sizes 100, 100 and 37 it returns the 237 concatenated bookmarks
with exactly three page fetches and no fourth; and an error page is
propagated immediately with no further page fetched. -/
theorem C4_fetch_all_pagination (cfg : Config) (server : Server)
    (fuel : Nat) (user : Option String) (sort : Nat) (tags : Option String)
    (filt : String) (ln : Option String) (p0 p1 p2 : List Bookmark) :
    1 ≤ cfg.maxRetries → 3 ≤ fuel →
    p0.length = 100 → p1.length = 100 → p2.length = 37 →
    (server (getReq cfg (user.getD cfg.defaultUser) 0 100 sort tags filt
        ln) 0 = .resp 200 "" (some (.list p0)) →
     server (getReq cfg (user.getD cfg.defaultUser) 100 100 sort tags filt
        ln) 0 = .resp 200 "" (some (.list p1)) →
     server (getReq cfg (user.getD cfg.defaultUser) 200 100 sort tags filt
        ln) 0 = .resp 200 "" (some (.list p2)) →
     get_all_bookmarks cfg server fuel user sort tags filt ln
        = some (.inl (p0 ++ p1 ++ p2),
            [.attempt (getReq cfg (user.getD cfg.defaultUser) 0 100 sort
                tags filt ln) 0,
             .attempt (getReq cfg (user.getD cfg.defaultUser) 100 100 sort
                tags filt ln) 0,
             .attempt (getReq cfg (user.getD cfg.defaultUser) 200 100 sort
                tags filt ln) 0])
     ∧ (p0 ++ p1 ++ p2).length = 237)
    ∧ (∀ (b : String) (j : Option PyVal),
       server (getReq cfg (user.getD cfg.defaultUser) 0 100 sort tags filt
          ln) 0 = .resp 200 "" (some (.list p0)) →
       server (getReq cfg (user.getD cfg.defaultUser) 100 100 sort tags
          filt ln) 0 = .resp 404 b j →
       get_all_bookmarks cfg server fuel user sort tags filt ln
          = some (.inr [("error", "Resource not found: " ++ b)],
              [.attempt (getReq cfg (user.getD cfg.defaultUser) 0 100 sort
                  tags filt ln) 0,
               .attempt (getReq cfg (user.getD cfg.defaultUser) 100 100
                  sort tags filt ln) 0])) := by
  intro hm hf h0 h1 h2
  obtain ⟨f, rfl⟩ : ∃ f, fuel = f + 3 := ⟨fuel - 3, by omega⟩
  constructor
  · intro hs0 hs1 hs2
    have g0 := get_bookmarks_list cfg server user 0 100 sort tags filt ln
      "" p0 hm hs0
    have g1 := get_bookmarks_list cfg server user 100 100 sort tags filt ln
      "" p1 hm hs1
    have g2 := get_bookmarks_list cfg server user 200 100 sort tags filt ln
      "" p2 hm hs2
    have hE0 := isEmpty_false_of_length_pos p0 (by omega)
    have hE1 := isEmpty_false_of_length_pos p1 (by omega)
    have hE2 := isEmpty_false_of_length_pos p2 (by omega)
    unfold get_all_bookmarks
    rw [show f + 3 = (f + 2) + 1 from rfl, getAllAux_page cfg server user
      sort tags filt ln (f + 2) 0 [] [] p0 _ g0, hE0]
    simp only [Bool.false_eq_true, if_false, h0, Nat.lt_irrefl, if_neg]
    rw [show f + 2 = (f + 1) + 1 from rfl, getAllAux_page cfg server user
      sort tags filt ln (f + 1) 100 _ _ p1 _ g1, hE1]
    simp only [Bool.false_eq_true, if_false, h1, Nat.lt_irrefl, if_neg]
    rw [show f + 1 = f + 1 from rfl, getAllAux_page cfg server user
      sort tags filt ln f 200 _ _ p2 _ g2, hE2]
    simp only [Bool.false_eq_true, if_false, h2]
    rw [if_pos (by omega)]
    refine ⟨by simp, ?_⟩
    simp [h0, h1, h2]
  · intro b j hs0 hs1
    have g0 := get_bookmarks_list cfg server user 0 100 sort tags filt ln
      "" p0 hm hs0
    have g1 := get_bookmarks_err404 cfg server user 100 100 sort tags filt
      ln b j hm hs1
    have hE0 := isEmpty_false_of_length_pos p0 (by omega)
    unfold get_all_bookmarks
    rw [show f + 3 = (f + 2) + 1 from rfl, getAllAux_page cfg server user
      sort tags filt ln (f + 2) 0 [] [] p0 _ g0, hE0]
    simp only [Bool.false_eq_true, if_false, h0, Nat.lt_irrefl, if_neg]
    rw [show f + 2 = (f + 1) + 1 from rfl, getAllAux_err cfg server user
      sort tags filt ln (f + 1) 100 _ _ _ _ g1]
    simp

/-- A concrete bookmark used by witnesses. -/
def bkW : Bookmark :=
  { url := "http://a", title := "A", desc := "", tags := "",
    shared := "no", readlater := "no", annotations := [] }

/-- A server that answers page fetches by their start offset: full pages
of 100 bookmarks at offsets 0 and 100, then a short page of 37. -/
def serverWPages : Server := fun r _ =>
  if dictGet r.params "start" "" == "0" then
    .resp 200 "" (some (.list (List.replicate 100 bkW)))
  else if dictGet r.params "start" "" == "100" then
    .resp 200 "" (some (.list (List.replicate 100 bkW)))
  else
    .resp 200 "" (some (.list (List.replicate 37 bkW)))

/-- C4 witness: the pagination theorem applied to the concrete
three-page server, yielding 237 bookmarks in exactly three fetches. -/
theorem C4_fetch_all_pagination_witness :
    (1 ≤ cfgW.maxRetries ∧ (3 : Nat) ≤ 3
      ∧ (List.replicate 100 bkW).length = 100
      ∧ (List.replicate 37 bkW).length = 37
      ∧ serverWPages (getReq cfgW cfgW.defaultUser 0 100 1 none "all"
          none) 0 = .resp 200 "" (some (.list (List.replicate 100 bkW)))
      ∧ serverWPages (getReq cfgW cfgW.defaultUser 100 100 1 none "all"
          none) 0 = .resp 200 "" (some (.list (List.replicate 100 bkW)))
      ∧ serverWPages (getReq cfgW cfgW.defaultUser 200 100 1 none "all"
          none) 0 = .resp 200 "" (some (.list (List.replicate 37 bkW))))
    ∧ (get_all_bookmarks cfgW serverWPages 3 none 1 none "all" none
        = some (.inl (List.replicate 100 bkW ++ List.replicate 100 bkW
              ++ List.replicate 37 bkW),
            [.attempt (getReq cfgW cfgW.defaultUser 0 100 1 none "all"
                none) 0,
             .attempt (getReq cfgW cfgW.defaultUser 100 100 1 none "all"
                none) 0,
             .attempt (getReq cfgW cfgW.defaultUser 200 100 1 none "all"
                none) 0])
      ∧ (List.replicate 100 bkW ++ List.replicate 100 bkW
          ++ List.replicate 37 bkW).length = 237) :=
  ⟨⟨by decide, by decide, by simp, by simp, rfl, rfl, rfl⟩,
   (C4_fetch_all_pagination cfgW serverWPages 3 none 1 none "all" none
      (List.replicate 100 bkW) (List.replicate 100 bkW)
      (List.replicate 37 bkW) (by decide) (by decide) (by simp) (by simp)
      (by simp)).1 rfl rfl rfl⟩

lemma save_bookmark_json (cfg : Config) (server : Server)
    (url title desc tags : String) (shared read_later merge : Bool)
    (body : String) (v : PyVal) (hm : 1 ≤ cfg.maxRetries)
    (h : server (saveReq cfg url title desc tags shared read_later merge) 0
      = .resp 200 body (some v)) :
    save_bookmark cfg server url title desc tags shared read_later merge
      = (v, [.attempt (saveReq cfg url title desc tags shared read_later
          merge) 0]) := by
  unfold save_bookmark
  rw [requestWithRetry_json cfg server "POST" "bookmarks" []
    (mkSaveData url title desc tags shared read_later merge) body v hm h]
  rfl

lemma get_all_single_page (cfg : Config) (server : Server) (fuel : Nat)
    (user : Option String) (sort : Nat) (tags : Option String)
    (filt : String) (ln : Option String) (bs : List Bookmark)
    (hm : 1 ≤ cfg.maxRetries) (hf : 1 ≤ fuel) (hlen : bs.length < 100)
    (h : server (getReq cfg (user.getD cfg.defaultUser) 0 100 sort tags
        filt ln) 0 = .resp 200 "" (some (.list bs))) :
    get_all_bookmarks cfg server fuel user sort tags filt ln
      = some (.inl bs, [.attempt (getReq cfg (user.getD cfg.defaultUser)
          0 100 sort tags filt ln) 0]) := by
  obtain ⟨f, rfl⟩ : ∃ f, fuel = f + 1 := ⟨fuel - 1, by omega⟩
  unfold get_all_bookmarks
  rw [getAllAux_page cfg server user sort tags filt ln f 0 [] [] bs _
    (get_bookmarks_list cfg server user 0 100 sort tags filt ln "" bs hm h)]
  rcases bs with _ | ⟨b0, brest⟩
  · simp
  · have hE : (b0 :: brest).isEmpty = false := rfl
    rw [hE]
    simp only [Bool.false_eq_true, if_false]
    rw [if_pos hlen]
    simp

/-- C5: update performs a read-modify-write — after locating the
existing bookmark with the exact URL, it issues exactly one save call in
which every field comes from the explicit argument when provided and
from the existing record otherwise, with the merge flag enabled; and
when no bookmark with that URL exists, a not-found error is returned and
no save call is made. -/
theorem C5_update_read_modify_write (cfg : Config) (server : Server)
    (fuel : Nat) (url : String) (title desc tags : Option String)
    (shared read_later : Option Bool) (bs : List Bookmark) :
    1 ≤ cfg.maxRetries → 1 ≤ fuel →
    validate_url url = true →
    bs.length < 100 →
    server (getReq cfg cfg.defaultUser 0 100 1 none "all" none) 0
      = .resp 200 "" (some (.list bs)) →
    ((∀ (B : Bookmark) (v : PyVal) (body : String),
      bs.find? (fun b => b.url == url) = some B →
      server (saveReq cfg url (title.getD B.title) (desc.getD B.desc)
          (tags.getD B.tags) (shared.getD (B.shared == "yes"))
          (read_later.getD (B.readlater == "yes")) true) 0
        = .resp 200 body (some v) →
      update_bookmark_tool cfg server fuel none url title desc tags shared
          read_later
        = some (.json v,
            [.attempt (getReq cfg cfg.defaultUser 0 100 1 none "all"
                none) 0,
             .attempt (saveReq cfg url (title.getD B.title)
                (desc.getD B.desc) (tags.getD B.tags)
                (shared.getD (B.shared == "yes"))
                (read_later.getD (B.readlater == "yes")) true) 0])
      ∧ postAttempts
          [.attempt (getReq cfg cfg.defaultUser 0 100 1 none "all" none) 0,
           .attempt (saveReq cfg url (title.getD B.title)
              (desc.getD B.desc) (tags.getD B.tags)
              (shared.getD (B.shared == "yes"))
              (read_later.getD (B.readlater == "yes")) true) 0]
          = [saveReq cfg url (title.getD B.title) (desc.getD B.desc)
              (tags.getD B.tags) (shared.getD (B.shared == "yes"))
              (read_later.getD (B.readlater == "yes")) true]
      ∧ dictGet (mkSaveData url (title.getD B.title) (desc.getD B.desc)
          (tags.getD B.tags) (shared.getD (B.shared == "yes"))
          (read_later.getD (B.readlater == "yes")) true) "merge" ""
          = "yes")
    ∧ (bs.find? (fun b => b.url == url) = none →
      update_bookmark_tool cfg server fuel none url title desc tags shared
          read_later
        = some (errJson ("Bookmark not found: " ++ url),
            [.attempt (getReq cfg cfg.defaultUser 0 100 1 none "all"
                none) 0])
      ∧ postAttempts
          [.attempt (getReq cfg cfg.defaultUser 0 100 1 none "all" none) 0]
          = [])) := by
  intro hm hf hv hlen hs
  have hall := get_all_single_page cfg server fuel none 1 none "all" none
    bs hm hf hlen hs
  constructor
  · intro B v body hfind hsave
    refine ⟨?_, ?_, ?_⟩
    · simp only [update_bookmark_tool, hv, Bool.not_true,
        Bool.false_eq_true, if_false]
      rw [hall]
      simp only [hfind]
      rw [save_bookmark_json cfg server url (title.getD B.title)
        (desc.getD B.desc) (tags.getD B.tags)
        (shared.getD (B.shared == "yes"))
        (read_later.getD (B.readlater == "yes")) true body v hm hsave]
      simp
    · simp [postAttempts, httpAttempts, getReq, saveReq, buildReq]
    · simp [mkSaveData, dictGet, parse_bool_param]
  · intro hfind
    refine ⟨?_, ?_⟩
    · simp only [update_bookmark_tool, hv, Bool.not_true,
        Bool.false_eq_true, if_false]
      rw [hall]
      simp only [hfind]
      simp
    · simp [postAttempts, httpAttempts, getReq, buildReq]

/-- The existing bookmark of the update example: title "T", desc "D",
tags "old", shared, not read-later. -/
def bkU : Bookmark :=
  { url := "https://e.com/a", title := "T", desc := "D", tags := "old",
    shared := "yes", readlater := "no", annotations := [] }

/-- A server whose GET returns the single existing bookmark and whose
POST acknowledges the save. -/
def serverWUpdate : Server := fun r _ =>
  if r.method == "GET" then .resp 200 "" (some (.list [bkU]))
  else .resp 200 "" (some (.dict [("message", "Saved 1 bookmarks")]))

/-- C5 witness: updating only the tags to "new" on the record with
title "T", desc "D", tags "old", shared=yes, read_later=no issues one
save of title "T", desc "D", tags "new", shared yes, readLater no,
merge yes. -/
theorem C5_update_read_modify_write_witness :
    (validate_url "https://e.com/a" = true
      ∧ [bkU].length < 100
      ∧ serverWUpdate (getReq cfgW cfgW.defaultUser 0 100 1 none "all"
          none) 0 = .resp 200 "" (some (.list [bkU]))
      ∧ [bkU].find? (fun b => b.url == "https://e.com/a") = some bkU
      ∧ serverWUpdate (saveReq cfgW "https://e.com/a"
            ((none : Option String).getD bkU.title)
            ((none : Option String).getD bkU.desc)
            ((some "new").getD bkU.tags)
            ((none : Option Bool).getD (bkU.shared == "yes"))
            ((none : Option Bool).getD (bkU.readlater == "yes")) true) 0
          = .resp 200 "" (some (.dict [("message", "Saved 1 bookmarks")])))
    ∧ mkSaveData "https://e.com/a" "T" "D" "new" true false true
        = [("url", "https://e.com/a"), ("title", "T"), ("desc", "D"),
           ("tags", "new"), ("shared", "yes"), ("readLater", "no"),
           ("merge", "yes")]
    ∧ (update_bookmark_tool cfgW serverWUpdate 1 none "https://e.com/a"
          none none (some "new") none none
        = some (.json (.dict [("message", "Saved 1 bookmarks")]),
            [.attempt (getReq cfgW cfgW.defaultUser 0 100 1 none "all"
                none) 0,
             .attempt (saveReq cfgW "https://e.com/a"
                ((none : Option String).getD bkU.title)
                ((none : Option String).getD bkU.desc)
                ((some "new").getD bkU.tags)
                ((none : Option Bool).getD (bkU.shared == "yes"))
                ((none : Option Bool).getD (bkU.readlater == "yes"))
                true) 0])
      ∧ postAttempts
          [.attempt (getReq cfgW cfgW.defaultUser 0 100 1 none "all"
              none) 0,
           .attempt (saveReq cfgW "https://e.com/a"
              ((none : Option String).getD bkU.title)
              ((none : Option String).getD bkU.desc)
              ((some "new").getD bkU.tags)
              ((none : Option Bool).getD (bkU.shared == "yes"))
              ((none : Option Bool).getD (bkU.readlater == "yes"))
              true) 0]
          = [saveReq cfgW "https://e.com/a"
              ((none : Option String).getD bkU.title)
              ((none : Option String).getD bkU.desc)
              ((some "new").getD bkU.tags)
              ((none : Option Bool).getD (bkU.shared == "yes"))
              ((none : Option Bool).getD (bkU.readlater == "yes")) true]
      ∧ dictGet (mkSaveData "https://e.com/a"
          ((none : Option String).getD bkU.title)
          ((none : Option String).getD bkU.desc)
          ((some "new").getD bkU.tags)
          ((none : Option Bool).getD (bkU.shared == "yes"))
          ((none : Option Bool).getD (bkU.readlater == "yes")) true)
          "merge" "" = "yes") :=
  ⟨⟨by decide, by decide, rfl, by decide, rfl⟩, by decide,
   (C5_update_read_modify_write cfgW serverWUpdate 1 "https://e.com/a"
      none none (some "new") none none [bkU] (by decide) (by decide)
      (by decide) (by decide) rfl).1 bkU
     (.dict [("message", "Saved 1 bookmarks")]) "" (by decide) rfl⟩

/-- C7: create validates the URL first — an invalid URL yields a
validation error with an empty event trace (no network call, no client
work), even when entering the client would raise; a valid URL issues
exactly one save call whose merge flag is the wire value "no". -/
theorem C7_create_validate_then_save (cfg : Config) (server : Server)
    (url title desc tags : String) (shared read_later : Bool) :
    (∀ exc : Option String, validate_url url = false →
      create_bookmark_tool cfg server exc url title desc tags shared
          read_later
        = some (errJson ("Invalid URL: " ++ url), []))
    ∧ (∀ (body : String) (v : PyVal), validate_url url = true →
      1 ≤ cfg.maxRetries →
      server (saveReq cfg url title desc tags shared read_later false) 0
        = .resp 200 body (some v) →
      create_bookmark_tool cfg server none url title desc tags shared
          read_later
        = some (.json v,
            [.attempt (saveReq cfg url title desc tags shared read_later
                false) 0])
      ∧ postAttempts [.attempt (saveReq cfg url title desc tags shared
            read_later false) 0]
          = [saveReq cfg url title desc tags shared read_later false]
      ∧ dictGet (mkSaveData url title desc tags shared read_later false)
          "merge" "" = "no") := by
  constructor
  · intro exc hv
    simp [create_bookmark_tool, hv]
  · intro body v hv hm hsave
    refine ⟨?_, ?_, ?_⟩
    · simp only [create_bookmark_tool, hv, Bool.not_true,
        Bool.false_eq_true, if_false]
      rw [save_bookmark_json cfg server url title desc tags shared
        read_later false body v hm hsave]
    · simp [postAttempts, httpAttempts, saveReq, buildReq]
    · simp [mkSaveData, dictGet, parse_bool_param]

/-- A server acknowledging every save. -/
def serverWCreate : Server :=
  fun _ _ => .resp 200 "" (some (.dict [("message", "Saved 1 bookmarks")]))

/-- C7 witness: the create theorem applied to the invalid URL
"not-a-url" (validation error, empty trace) and to the valid URL
"https://e.com/a" (one save with merge "no"). -/
theorem C7_create_validate_then_save_witness :
    (validate_url "not-a-url" = false
      ∧ create_bookmark_tool cfgW serverWCreate none "not-a-url" "A" ""
          "" false false
          = some (errJson ("Invalid URL: " ++ "not-a-url"), []))
    ∧ (validate_url "https://e.com/a" = true
      ∧ serverWCreate (saveReq cfgW "https://e.com/a" "A" "" "" false
          false false) 0
          = .resp 200 "" (some (.dict [("message", "Saved 1 bookmarks")]))
      ∧ (create_bookmark_tool cfgW serverWCreate none "https://e.com/a"
            "A" "" "" false false
          = some (.json (.dict [("message", "Saved 1 bookmarks")]),
              [.attempt (saveReq cfgW "https://e.com/a" "A" "" "" false
                  false false) 0])
        ∧ postAttempts [.attempt (saveReq cfgW "https://e.com/a" "A" ""
              "" false false false) 0]
            = [saveReq cfgW "https://e.com/a" "A" "" "" false false false]
        ∧ dictGet (mkSaveData "https://e.com/a" "A" "" "" false false
            false) "merge" "" = "no")) :=
  ⟨⟨by decide,
    (C7_create_validate_then_save cfgW serverWCreate "not-a-url" "A" ""
        "" false false).1 none (by decide)⟩,
   by decide, rfl,
   (C7_create_validate_then_save cfgW serverWCreate "https://e.com/a"
       "A" "" "" false false).2 ""
     (.dict [("message", "Saved 1 bookmarks")]) (by decide) (by decide)
     rfl⟩

lemma save_bookmark_404 (cfg : Config) (server : Server)
    (url title desc tags : String) (shared read_later merge : Bool)
    (b : String) (j : Option PyVal) (hm : 1 ≤ cfg.maxRetries)
    (h : server (saveReq cfg url title desc tags shared read_later merge) 0
      = .resp 404 b j) :
    save_bookmark cfg server url title desc tags shared read_later merge
      = (.dict [("error", "Resource not found: " ++ b)],
         [.attempt (saveReq cfg url title desc tags shared read_later
            merge) 0]) := by
  unfold save_bookmark
  rw [requestWithRetry_404 cfg server "POST" "bookmarks" []
    (mkSaveData url title desc tags shared read_later merge) b j hm h]
  rfl

/-- C6 (amended): bulk create processes the items strictly sequentially
in input order, never aborts the batch on a single failure, records each
failure under its original zero-based index, and sleeps the delay after
every item except the last whenever the item's save produced a dict
result (success or error); over three items whose middle save is
rejected with a terminal error it reports success 2, failed 1, the
failure record at index 1, and exactly two delay sleeps. -/
theorem C6_bulk_sequential (cfg : Config) (server : Server)
    (i0 i1 i2 : BulkItem) (delay : ℚ) (m0 m2 b : String)
    (j : Option PyVal) :
    1 ≤ cfg.maxRetries →
    server (saveReq cfg i0.url i0.title i0.desc i0.tags i0.shared
        i0.read_later true) 0 = .resp 200 "" (some (.dict [("message", m0)])) →
    server (saveReq cfg i1.url i1.title i1.desc i1.tags i1.shared
        i1.read_later true) 0 = .resp 404 b j →
    server (saveReq cfg i2.url i2.title i2.desc i2.tags i2.shared
        i2.read_later true) 0 = .resp 200 "" (some (.dict [("message", m2)])) →
    bulk_save_bookmarks cfg server [i0, i1, i2] delay
      = ({ total := 3, success := 2, failed := 1,
           failures := [{ index := 1, url := i1.url,
                          error := "Resource not found: " ++ b }] },
         [.attempt (saveReq cfg i0.url i0.title i0.desc i0.tags i0.shared
            i0.read_later true) 0,
          .sleep delay,
          .attempt (saveReq cfg i1.url i1.title i1.desc i1.tags i1.shared
            i1.read_later true) 0,
          .sleep delay,
          .attempt (saveReq cfg i2.url i2.title i2.desc i2.tags i2.shared
            i2.read_later true) 0])
    ∧ sleeps (bulk_save_bookmarks cfg server [i0, i1, i2] delay).2
        = [delay, delay]
    ∧ httpAttempts (bulk_save_bookmarks cfg server [i0, i1, i2] delay).2
        = [saveReq cfg i0.url i0.title i0.desc i0.tags i0.shared
            i0.read_later true,
           saveReq cfg i1.url i1.title i1.desc i1.tags i1.shared
            i1.read_later true,
           saveReq cfg i2.url i2.title i2.desc i2.tags i2.shared
            i2.read_later true] := by
  intro hm h0 h1 h2
  have hmain : bulk_save_bookmarks cfg server [i0, i1, i2] delay
      = ({ total := 3, success := 2, failed := 1,
           failures := [{ index := 1, url := i1.url,
                          error := "Resource not found: " ++ b }] },
         [.attempt (saveReq cfg i0.url i0.title i0.desc i0.tags i0.shared
            i0.read_later true) 0,
          .sleep delay,
          .attempt (saveReq cfg i1.url i1.title i1.desc i1.tags i1.shared
            i1.read_later true) 0,
          .sleep delay,
          .attempt (saveReq cfg i2.url i2.title i2.desc i2.tags i2.shared
            i2.read_later true) 0]) := by
    unfold bulk_save_bookmarks
    simp only [List.length_cons, List.length_nil]
    simp only [bulkGo]
    rw [save_bookmark_json cfg server i0.url i0.title i0.desc i0.tags
      i0.shared i0.read_later true "" (.dict [("message", m0)]) hm h0]
    simp only [bulkGo]
    rw [save_bookmark_404 cfg server i1.url i1.title i1.desc i1.tags
      i1.shared i1.read_later true b j hm h1]
    simp only [bulkGo]
    rw [save_bookmark_json cfg server i2.url i2.title i2.desc i2.tags
      i2.shared i2.read_later true "" (.dict [("message", m2)]) hm h2]
    simp only [bulkGo]
    simp [dictGet]
  refine ⟨hmain, ?_, ?_⟩ <;> rw [hmain] <;> simp

/-- Three concrete bulk items with distinct URLs. -/
def itemsC6 : List BulkItem :=
  [{ url := "http://a", title := "A", desc := "", tags := "",
     shared := false, read_later := false },
   { url := "http://b", title := "B", desc := "", tags := "",
     shared := false, read_later := false },
   { url := "http://c", title := "C", desc := "", tags := "",
     shared := false, read_later := false }]

/-- A server returning a 200 JSON array (a non-dict result) for the
middle item's save and a message dict for the others. -/
def serverC6x : Server := fun r _ =>
  if dictGet r.data "url" "" == "http://b" then
    .resp 200 "" (some (.list []))
  else .resp 200 "" (some (.dict [("message", "ok")]))

/-- C6 is false exactly as stated: when the middle item's save returns a
200 JSON array, the Python code hits the in-loop exception handler
(`result.get` on a list) and skips the rate-limit sleep, so a 3-item
batch performs only one delay sleep instead of one between every pair of
consecutive calls; the batch still is not aborted and the failure is
recorded at index 1. -/
theorem C6_sleep_skip_counterexample :
    itemsC6.length = 3
    ∧ (bulk_save_bookmarks cfgW serverC6x itemsC6 1).1.success = 2
    ∧ (bulk_save_bookmarks cfgW serverC6x itemsC6 1).1.failed = 1
    ∧ (bulk_save_bookmarks cfgW serverC6x itemsC6
        1).1.failures.map FailureRec.index = [1]
    ∧ sleeps (bulk_save_bookmarks cfgW serverC6x itemsC6 1).2 = [(1 : ℚ)]
    ∧ (sleeps (bulk_save_bookmarks cfgW serverC6x itemsC6 1).2).length
        ≠ itemsC6.length - 1 := by
  refine ⟨rfl, ?_, ?_, ?_, ?_, ?_⟩ <;> decide

/-- A server rejecting the middle item's save with a terminal 404 and
acknowledging the others. -/
def serverC6 : Server := fun r _ =>
  if dictGet r.data "url" "" == "http://b" then .resp 404 "bad url" none
  else .resp 200 "" (some (.dict [("message", "ok")]))

/-- C6 witness: the amended bulk theorem applied to three concrete items
whose middle save is rejected, giving success 2, failed 1, index 1 and
exactly two delay sleeps. -/
theorem C6_bulk_sequential_witness :
    (1 ≤ cfgW.maxRetries
      ∧ serverC6 (saveReq cfgW "http://a" "A" "" "" false false true) 0
          = .resp 200 "" (some (.dict [("message", "ok")]))
      ∧ serverC6 (saveReq cfgW "http://b" "B" "" "" false false true) 0
          = .resp 404 "bad url" none
      ∧ serverC6 (saveReq cfgW "http://c" "C" "" "" false false true) 0
          = .resp 200 "" (some (.dict [("message", "ok")])))
    ∧ (bulk_save_bookmarks cfgW serverC6 itemsC6 1
        = ({ total := 3, success := 2, failed := 1,
             failures := [{ index := 1, url := "http://b",
                            error := "Resource not found: " ++ "bad url" }] },
           [.attempt (saveReq cfgW "http://a" "A" "" "" false false
              true) 0,
            .sleep 1,
            .attempt (saveReq cfgW "http://b" "B" "" "" false false
              true) 0,
            .sleep 1,
            .attempt (saveReq cfgW "http://c" "C" "" "" false false
              true) 0])
      ∧ sleeps (bulk_save_bookmarks cfgW serverC6 itemsC6 1).2
          = [(1 : ℚ), 1]
      ∧ httpAttempts (bulk_save_bookmarks cfgW serverC6 itemsC6 1).2
          = [saveReq cfgW "http://a" "A" "" "" false false true,
             saveReq cfgW "http://b" "B" "" "" false false true,
             saveReq cfgW "http://c" "C" "" "" false false true]) :=
  ⟨⟨by decide, rfl, rfl, rfl⟩,
   C6_bulk_sequential cfgW serverC6
     { url := "http://a", title := "A", desc := "", tags := "",
       shared := false, read_later := false }
     { url := "http://b", title := "B", desc := "", tags := "",
       shared := false, read_later := false }
     { url := "http://c", title := "C", desc := "", tags := "",
       shared := false, read_later := false }
     1 "ok" "ok" "bad url" none (by decide) rfl rfl rfl⟩

/-- C1: every public tool operation is a total function from inputs and
outcome oracles to exactly one structured result — a payload or an error
object of the form `errJson msg` — and an exception raised at the client
boundary (the `exc` oracle) is converted by the boundary handler into
that error object rather than propagated; for the create and update
tools the URL validation error takes precedence because validation runs
before the client context is entered.  Tools that auto-paginate return
`none` only on fuel exhaustion, which models the Python loop not
terminating, not an escaping exception. -/
theorem C1_operation_boundary :
    (∀ (cfg : Config) (server : Server) (fuel : Nat) (e : String)
        (user : Option String) (count : Option Nat) (start sort : Nat)
        (tags : Option String) (filt : String) (ln : Option String),
      list_bookmarks_tool cfg server fuel (some e) user count start sort
          tags filt ln = some (errJson e, []))
    ∧ (∀ (cfg : Config) (server : Server) (fuel : Nat) (e query : String)
        (tags : Option String) (filt : String) (user : Option String),
      search_bookmarks_tool cfg server fuel (some e) query tags filt user
        = some (errJson e, []))
    ∧ (∀ (cfg : Config) (server : Server) (fuel : Nat) (e url : String)
        (user : Option String),
      get_bookmark_tool cfg server fuel (some e) url user
        = some (errJson e, []))
    ∧ (∀ (cfg : Config) (server : Server) (e url title desc tags : String)
        (shared read_later : Bool),
      create_bookmark_tool cfg server (some e) url title desc tags shared
          read_later
        = some (if validate_url url then errJson e
                else errJson ("Invalid URL: " ++ url), []))
    ∧ (∀ (cfg : Config) (server : Server) (fuel : Nat) (e url : String)
        (title desc tags : Option String) (shared read_later : Option Bool),
      update_bookmark_tool cfg server fuel (some e) url title desc tags
          shared read_later
        = some (if validate_url url then errJson e
                else errJson ("Invalid URL: " ++ url), []))
    ∧ (∀ (cfg : Config) (server : Server) (fuel : Nat) (e url : String)
        (title : Option String),
      delete_bookmark_tool cfg server fuel (some e) url title
        = some (errJson e, []))
    ∧ (∀ (cfg : Config) (server : Server) (e : String) (count : Nat)
        (user : Option String),
      get_recent_bookmarks_tool cfg server (some e) count user
        = some (errJson e, []))
    ∧ (∀ (cfg : Config) (server : Server) (fuel : Nat) (e url : String)
        (user : Option String),
      get_annotations_tool cfg server fuel (some e) url user
        = some (errJson e, []))
    ∧ (∀ (cfg : Config) (server : Server) (e : String)
        (items : List BulkItem) (delay : ℚ),
      bulk_create_bookmarks_tool cfg server (some e) items delay
        = some (errJson e, []))
    ∧ (∀ (cfg : Config) (server : Server) (url title desc tags : String)
        (shared read_later : Bool),
      ∃ r, create_bookmark_tool cfg server none url title desc tags shared
          read_later = some r)
    ∧ (∀ (cfg : Config) (server : Server) (count : Nat)
        (user : Option String),
      ∃ r, get_recent_bookmarks_tool cfg server none count user = some r)
    ∧ (∀ (cfg : Config) (server : Server) (items : List BulkItem)
        (delay : ℚ),
      ∃ r, bulk_create_bookmarks_tool cfg server none items delay = some r)
    ∧ (∀ (cfg : Config) (server : Server) (user : Option String)
        (c start sort : Nat) (tags : Option String) (filt : String)
        (ln : Option String),
      ∃ r, list_bookmarks_tool cfg server 0 none user (some c) start sort
          tags filt ln = some r) := by
  refine ⟨?_, ?_, ?_, ?_, ?_, ?_, ?_, ?_, ?_, ?_, ?_, ?_, ?_⟩
  · intros; rfl
  · intros; rfl
  · intros; rfl
  · intro cfg server e url title desc tags shared read_later
    cases hv : validate_url url <;> simp [create_bookmark_tool, hv]
  · intro cfg server fuel e url title desc tags shared read_later
    cases hv : validate_url url <;> simp [update_bookmark_tool, hv]
  · intros; rfl
  · intros; rfl
  · intros; rfl
  · intros; rfl
  · intro cfg server url title desc tags shared read_later
    cases hv : validate_url url <;> simp [create_bookmark_tool, hv]
  · intro cfg server count user
    rcases h : get_bookmarks cfg server user 0 count 1 none "all" none
      with ⟨res | err, tr⟩ <;> simp [get_recent_bookmarks_tool, h]
  · intro cfg server items delay
    exact ⟨_, rfl⟩
  · intro cfg server user c start sort tags filt ln
    rcases h : get_bookmarks cfg server user start c sort tags filt ln
      with ⟨res | err, tr⟩ <;> simp [list_bookmarks_tool, h]
